import Mathlib

/-!
Verification development for the Animal_shelter repository
(`src/cats/service.py`, `src/cats/utils.py`, `src/cats/router.py`,
`src/cats/models.py`, `src/cats/schemas.py`).

The relational state is modelled as explicit lists of rows; the SQLAlchemy
session is a pair of committed/current states (flush edits `current`,
`commit` copies `current` into `committed`, `rollback` restores `current`
from `committed`).  The Google Drive store is modelled as an explicit state
of folders and files, and every remote call additionally takes a
`RemoteFault` describing how the raw API behaves on that call
(no fault, an `HttpError` with a given status, or some other exception),
so that the error-classification wrappers of `utils.py` can be stated for
every possible remote failure.  Fallible operations return `Except`;
HTTP exceptions, `ValueError` and `TypeError` are distinguished.
-/

/-- Errors raised by the service layer: FastAPI `HTTPException`s with their
status code and detail string, Python `ValueError`s, and `TypeError`. -/
inductive AppError where
  | http (status : Nat) (detail : String)
  | valueError (msg : String)
  | typeError
  deriving Repr, DecidableEq

/-- A row of the `cats` table (`models.py`, class `Cat`).  `registered_at`
is an abstract timestamp (always 0 here: time is not modelled).  Rows are
only ever created from a validated `CatCreate` payload, whose `name`,
`about` fields are required strings, so they are plain `String`s here. -/
structure CatRow where
  id : Nat
  name : String
  age : Int
  gender : String
  about : String
  sterilized : Bool
  registered_at : Nat
  views : Nat
  google_folder_id : Option String
  deriving Repr, DecidableEq

/-- A row of the `photos` table as the service layer uses it
(`PhotoCreate` in `schemas.py`: url, cat_id, google_file_id). -/
structure PhotoRow where
  id : Nat
  url : String
  cat_id : Nat
  google_file_id : String
  deriving Repr, DecidableEq

/-- The committed relational database state, with the autoincrement
counters of the two primary keys. -/
structure DBState where
  cats : List CatRow
  photos : List PhotoRow
  nextCatId : Nat
  nextPhotoId : Nat
  deriving Repr, DecidableEq

/-- An SQLAlchemy `AsyncSession`: the committed state plus the current
(flushed but not yet committed) state. -/
structure Session where
  committed : DBState
  current : DBState
  deriving Repr, DecidableEq

/-- A fresh request-scoped session over a committed database state. -/
def mkSession (db : DBState) : Session := ⟨db, db⟩

/-- `await db.commit()`. -/
def Session.commit (s : Session) : Session := ⟨s.current, s.current⟩

/-- `await db.rollback()`. -/
def Session.rollback (s : Session) : Session := ⟨s.committed, s.committed⟩

/-- Apply a flushed (uncommitted) change to the current state. -/
def Session.modify (s : Session) (f : DBState → DBState) : Session :=
  { s with current := f s.current }

/-- `select(Cat).filter(Cat.id == cat_id)` / `db.get(Cat, cat_id)`:
first row with the given primary key. -/
def DBState.findCat (db : DBState) (cid : Nat) : Option CatRow :=
  db.cats.find? (fun c => c.id == cid)

/-- `select(CatPhoto).where(CatPhoto.id == photo_id)`. -/
def DBState.findPhoto (db : DBState) (pid : Nat) : Option PhotoRow :=
  db.photos.find? (fun p => p.id == pid)

/-- The photos belonging to a cat (`CatPhoto.cat_id == cat_id`). -/
def DBState.photosOfCat (db : DBState) (cid : Nat) : List PhotoRow :=
  db.photos.filter (fun p => p.cat_id == cid)

/-- The payload of `POST /cats/cat` after validation (`CatCreate` in
`schemas.py`): all five fields are required. -/
structure CatCreate where
  name : String
  age : Int
  gender : String
  about : String
  sterilized : Bool
  deriving Repr, DecidableEq

/-- Insert a new `Cat` row (`create_cat` body): the id is drawn from the
autoincrement counter at flush time; `registered_at` defaults to the
creation instant (abstracted to 0), `views` to 0, `google_folder_id` to
NULL. -/
def DBState.insertCat (db : DBState) (c : CatCreate) : CatRow × DBState :=
  let row : CatRow :=
    ⟨db.nextCatId, c.name, c.age, c.gender, c.about, c.sterilized, 0, 0, none⟩
  (row, { db with cats := db.cats ++ [row], nextCatId := db.nextCatId + 1 })

/-- Record a cat's Google Drive folder id
(`db_cat.google_folder_id = folder_id`). -/
def DBState.setCatFolder (db : DBState) (cid : Nat) (fid : String) : DBState :=
  { db with cats := (db.cats.map
      (fun c => if c.id == cid then { c with google_folder_id := some fid } else c)) }

/-- Insert one `CatPhoto` row (`db.add(db_photo); await db.flush()`). -/
def DBState.insertPhoto (db : DBState) (url : String) (cid : Nat)
    (gfid : String) : DBState :=
  { db with photos := db.photos ++ [⟨db.nextPhotoId, url, cid, gfid⟩],
            nextPhotoId := db.nextPhotoId + 1 }

/-- Delete every photo row of a cat (the loop over
`select(CatPhoto).where(CatPhoto.cat_id == cat_id)` in `delete_cat`). -/
def DBState.deletePhotosOfCat (db : DBState) (cid : Nat) : DBState :=
  { db with photos := db.photos.filter (fun p => !(p.cat_id == cid)) }

/-- Delete the cat row itself (`await db.delete(db_cat)`). -/
def DBState.deleteCatRow (db : DBState) (cid : Nat) : DBState :=
  { db with cats := db.cats.filter (fun c => !(c.id == cid)) }

/-- Delete a single photo row (`await db.delete(photo)`). -/
def DBState.deletePhotoRow (db : DBState) (pid : Nat) : DBState :=
  { db with photos := db.photos.filter (fun p => !(p.id == pid)) }

/-- An uploaded multipart file as FastAPI hands it to the service
(`UploadFile`): filename, declared content type, size in bytes. -/
structure UploadFile where
  filename : String
  content_type : String
  size : Nat
  deriving Repr, DecidableEq

/-- The PATCH payload (`CatUpdate` in `schemas.py`) as pydantic represents
it at runtime: the five field values together with the membership of each
field in `__fields_set__`, which is what `dict(exclude_unset=True)`
filters by. -/
structure CatUpdate where
  name : String
  age : Int
  gender : String
  about : String
  sterilized : Bool
  name_set : Bool
  age_set : Bool
  gender_set : Bool
  about_set : Bool
  sterilized_set : Bool
  deriving Repr, DecidableEq

/-- The `setattr` loop of `update_cat_in_db`: each key present in
`cat_update.dict(exclude_unset=True)` overwrites the row's attribute;
every other attribute of the row is untouched. -/
def applyUpdate (u : CatUpdate) (c : CatRow) : CatRow :=
  { c with
    name := if u.name_set then u.name else c.name,
    age := if u.age_set then u.age else c.age,
    gender := if u.gender_set then u.gender else c.gender,
    about := if u.about_set then u.about else c.about,
    sterilized := if u.sterilized_set then u.sterilized else c.sterilized }

/-- Apply a `CatUpdate` to the row with the given id. -/
def DBState.applyCatUpdate (db : DBState) (cid : Nat) (u : CatUpdate) : DBState :=
  { db with cats := (db.cats.map
      (fun c => if c.id == cid then applyUpdate u c else c)) }

/-- A folder in Google Drive.  The root "Photos of cats" folder is created
without a `parents` attribute, hence the optional parent. -/
structure DriveFolder where
  id : String
  name : String
  parent : Option String
  deriving Repr, DecidableEq

/-- A file stored in Google Drive, inside its parent folder. -/
structure DriveFile where
  id : String
  name : String
  parent : String
  deriving Repr, DecidableEq

/-- The state of the Google Drive store, with a counter for generated
object ids. -/
structure DriveState where
  folders : List DriveFolder
  files : List DriveFile
  nextId : Nat
  deriving Repr, DecidableEq

/-- How the raw Google Drive API behaves on one gateway call: normally,
raising a `googleapiclient` `HttpError` with a given status, or raising
some other (non-`HttpError`) exception. -/
inductive RemoteFault where
  | noFault
  | httpError (status : Nat)
  | otherError
  deriving Repr, DecidableEq

/-- The outcome of one `utils.py` gateway function: a returned value, a
fall-through `return None` (the function body ended without a value after
an exception was caught without being re-raised), or a raised
`HTTPException`. -/
inductive DriveCallResult (α : Type) where
  | ok (a : α)
  | noneReturned
  | httpExc (status : Nat) (detail : String)
  deriving Repr, DecidableEq

/-- Name of the top-level Drive folder. -/
def rootFolderName : String := "Photos of cats"

/-- The per-cat folder display name `f"{cat_id} - {cat_name}"`. -/
def catFolderName (cat_id : Nat) (cat_name : String) : String :=
  s!"{cat_id} - {cat_name}"

/-- A fresh Drive object id generated by the remote store. -/
def newDriveId (n : Nat) : String := "gid" ++ toString n

/-- Find-or-create of the "Photos of cats" folder (lookup is by name only,
with no parent constraint). -/
def findOrCreateRoot (d : DriveState) : String × DriveState :=
  match d.folders.find? (fun f => f.name == rootFolderName) with
  | some f => (f.id, d)
  | none =>
    let fid := newDriveId d.nextId
    (fid, { d with folders := d.folders ++ [⟨fid, rootFolderName, none⟩],
                   nextId := d.nextId + 1 })

/-- Find-or-create of the cat's folder: lookup is by exact display name
scoped to the root folder. -/
def findOrCreateCatFolder (d : DriveState) (rootId : String) (cid : Nat)
    (cname : String) : String × DriveState :=
  match d.folders.find?
      (fun f => f.name == catFolderName cid cname && f.parent == some rootId) with
  | some f => (f.id, d)
  | none =>
    let fid := newDriveId d.nextId
    (fid, { d with folders := d.folders ++
                     [⟨fid, catFolderName cid cname, some rootId⟩],
                   nextId := d.nextId + 1 })

/-- The per-file upload loop: each file is stored in the cat's folder under
a fresh id and yields the URL `https://drive.google.com/uc?id={file id}`. -/
def uploadFilesToFolder (d : DriveState) (folderId : String)
    (files : List UploadFile) : List String × DriveState :=
  files.foldl
    (fun (acc : List String × DriveState) file =>
      let fid := newDriveId acc.2.nextId
      (acc.1 ++ ["https://drive.google.com/uc?id=" ++ fid],
       { acc.2 with files := acc.2.files ++ [⟨fid, file.filename, folderId⟩],
                    nextId := acc.2.nextId + 1 }))
    ([], d)

/-- `utils.upload_photos_to_google_drive`.  The `except` clauses map an
`HttpError` 401 to `HTTPException(401)`, an `HttpError` 404 to
`HTTPException(404)`; an `HttpError` with any other status matches the
`except HttpError` clause, neither branch of which raises, so the function
falls through and returns `None`.  Any other exception is wrapped into
`HTTPException(500)`. -/
def upload_photos_to_google_drive (fault : RemoteFault) (d : DriveState)
    (files : List UploadFile) (cat_id : Nat) (cat_name : String) :
    DriveCallResult (List String × String × DriveState) :=
  match fault with
  | .noFault =>
    let r := findOrCreateRoot d
    let cf := findOrCreateCatFolder r.2 r.1 cat_id cat_name
    let up := uploadFilesToFolder cf.2 cf.1 files
    .ok (up.1, cf.1, up.2)
  | .httpError s =>
    if s == 401 then .httpExc 401 "Invalid credentials"
    else if s == 404 then
      .httpExc 404 "Failed to find a folder in Google Drive"
    else .noneReturned
  | .otherError =>
    .httpExc 500 "Failed to upload photos to Google Drive"

/-- `utils.delete_photos_from_drive`.  The folder lookup is by display name
with no parent constraint; when the folder is missing the body raises
`HTTPException(404)`, but that exception is not an `HttpError`, so the
blanket `except Exception` clause catches it and raises
`HTTPException(500)` instead.  On success every file in the folder and
then the folder itself are deleted (the function returns `None`, here
the new drive state). -/
def delete_photos_from_drive (fault : RemoteFault) (d : DriveState)
    (cat_id : Nat) (cat_name : String) : DriveCallResult DriveState :=
  match fault with
  | .noFault =>
    match d.folders.find? (fun f => f.name == catFolderName cat_id cat_name) with
    | none => .httpExc 500 "Failed to delete photos from Google Drive"
    | some f =>
      .ok { d with files := d.files.filter (fun fl => !(fl.parent == f.id)),
                   folders := d.folders.filter (fun g => !(g.id == f.id)) }
  | .httpError s =>
    if s == 401 then .httpExc 401 "Invalid credentials"
    else if s == 404 then
      .httpExc 404 s!"Folder for cat with id:{cat_id} not found"
    else .noneReturned
  | .otherError =>
    .httpExc 500 "Failed to delete photos from Google Drive"

/-- `utils.update_google_folder_name`.  When `folder_id` is `None`
(a cat that never had photos) the raw `files().update(fileId=None, ...)`
call raises a non-`HttpError` exception, which the blanket clause wraps
into `HTTPException(500)`; an unknown folder id raises a remote
`HttpError` 404 mapped to `HTTPException(404)`; on success the folder's
display name becomes `f"{cat_id} - {new_name}"`. -/
def update_google_folder_name (fault : RemoteFault) (d : DriveState)
    (folder_id : Option String) (cat_id : Nat) (new_name : String) :
    DriveCallResult DriveState :=
  match fault with
  | .noFault =>
    match folder_id with
    | none => .httpExc 500 "Failed to update folder name in Google Drive"
    | some fid =>
      if d.folders.any (fun f => f.id == fid) then
        .ok { d with folders := (d.folders.map
                (fun f => if f.id == fid then
                    { f with name := catFolderName cat_id new_name } else f)) }
      else .httpExc 404 s!"Folder for cat with id:{cat_id} not found"
  | .httpError s =>
    if s == 401 then .httpExc 401 "Invalid credentials"
    else if s == 404 then
      .httpExc 404 s!"Folder for cat with id:{cat_id} not found"
    else .noneReturned
  | .otherError =>
    .httpExc 500 "Failed to update folder name in Google Drive"

/-- `utils.delete_google_drive_file`: deletes one file by its Drive id;
a missing file raises a remote `HttpError` 404 mapped to
`HTTPException(404, "File not found")`. -/
def delete_google_drive_file (fault : RemoteFault) (d : DriveState)
    (file_id : String) : DriveCallResult DriveState :=
  match fault with
  | .noFault =>
    if d.files.any (fun fl => fl.id == file_id) then
      .ok { d with files := d.files.filter (fun fl => !(fl.id == file_id)) }
    else .httpExc 404 "File not found"
  | .httpError s =>
    if s == 401 then .httpExc 401 "Invalid credentials"
    else if s == 404 then .httpExc 404 "File not found"
    else .noneReturned
  | .otherError =>
    .httpExc 500 "Failed to update photos from Google Drive"

/-- Result of a service-layer operation: either an error together with the
session and drive state at the point the exception escaped, or a value
with the final session and drive state. -/
abbrev SR (α : Type) := Except (AppError × Session × DriveState) (α × Session × DriveState)

/-- The `except Exception as e: await db.rollback(); raise e` pattern that
wraps every mutating service function. -/
def withRollback {α : Type} (r : SR α) : SR α :=
  match r with
  | .ok x => .ok x
  | .error (e, s, d) => .error (e, s.rollback, d)

/-- The committed database state after a service call returns or raises. -/
def finalCommitted {α : Type} : SR α → DBState
  | .ok (_, s, _) => s.committed
  | .error (_, s, _) => s.committed

/-- The drive state after a service call returns or raises. -/
def finalDrive {α : Type} : SR α → DriveState
  | .ok (_, _, d) => d
  | .error (_, _, d) => d

/-- Whether a service call succeeded. -/
def srOk {α : Type} : SR α → Bool
  | .ok _ => true
  | .error _ => false

/-- `service.get_cat`: first cat with the requested id, else
`HTTPException(404, "Cat not found")`. -/
def get_cat (s : Session) (d : DriveState) (cat_id : Nat) : SR CatRow :=
  match s.current.findCat cat_id with
  | none => .error (.http 404 "Cat not found", s, d)
  | some c => .ok (c, s, d)

/-- `service.get_photo`: first photo with the requested id, else
`HTTPException(404, "Photo not found")`. -/
def get_photo (s : Session) (d : DriveState) (photo_id : Nat) : SR PhotoRow :=
  match s.current.findPhoto photo_id with
  | none => .error (.http 404 "Photo not found", s, d)
  | some p => .ok (p, s, d)

/-- `service.create_cat`: insert the row and flush (no commit). -/
def create_cat (s : Session) (d : DriveState) (cat : CatCreate) : SR CatRow :=
  withRollback
    (let r := (s.current.insertCat cat)
     .ok (r.1, { s with current := r.2 }, d))

/-- Python `str.lower` (character-wise lowering). -/
def pyLower (s : String) : String := ⟨s.data.map Char.toLower⟩

/-- Python `str.startswith`. -/
def strStartsWith (s pre : String) : Bool := pre.data.isPrefixOf s.data

/-- Python `str.endswith` for a single suffix. -/
def strEndsWith (s suffix : String) : Bool := suffix.data.isSuffixOf s.data

/-- Split a character list at a separator character (Python `str.split`). -/
def splitCharAux (sep : Char) : List Char → List Char → List (List Char)
  | [], cur => [cur.reverse]
  | c :: rest, cur =>
    if c == sep then cur.reverse :: splitCharAux sep rest []
    else splitCharAux sep rest (c :: cur)

/-- Python `url.split("=")` (the separator is a single character here). -/
def pySplitEq (s : String) : List String :=
  (splitCharAux '=' s.data []).map (fun l => ⟨l⟩)

/-- The allowed photo extensions check
(`file.filename.lower().endswith((".jpg", ".jpeg", ".png", ".gif"))`). -/
def hasAllowedExtension (filename : String) : Bool :=
  [".jpg", ".jpeg", ".png", ".gif"].any (fun ext => strEndsWith (pyLower filename) ext)

/-- The detail string of the invalid-extension `HTTPException(400)` (the
two adjacent f-strings of the source concatenate without a space). -/
def invalidTypeDetail (filename : String) : String :=
  s!"File '{filename}' has an invalid file type.Only image files are allowed."

/-- `url.split("=")[1]`: the Drive file id recovered from the upload URL
(the URLs built by the upload always contain exactly one `=`). -/
def googleFileIdOfUrl (url : String) : String :=
  (pySplitEq url).getD 1 ""

/-- The per-url loop of `upload_photos` and the `add_all` batch of
`add_photos_for_the_cat`: one flushed `CatPhoto` row per returned URL. -/
def insertPhotosFold (urls : List String) (cid : Nat) (db : DBState) : DBState :=
  urls.foldl (fun db url => db.insertPhoto url cid (googleFileIdOfUrl url)) db

/-- `service.upload_photos`: count check (`ValueError` beyond 10 files),
size check (`ValueError` for a file with an `image/*` content type larger
than 5 MiB), extension check (`HTTPException(400)`), the remote upload,
the `if not urls or not folder_id` check, then one flushed photo row per
URL.  A remote call that returned `None` makes the tuple unpacking raise
`TypeError`. -/
def upload_photos (fault : RemoteFault) (s : Session) (d : DriveState)
    (files : List UploadFile) (cat_id : Nat) (cat_name : String) :
    SR (List String × String) :=
  withRollback
    (if files.length > 10 then
      .error (.valueError "Maximum number of photos exceeded.", s, d)
    else match files.find?
        (fun f => strStartsWith f.content_type "image/" && f.size > 5242880) with
    | some _ => .error (.valueError "Maximum photo size exceeded.", s, d)
    | none =>
      match files.find? (fun f => !(hasAllowedExtension f.filename)) with
      | some f => .error (.http 400 (invalidTypeDetail f.filename), s, d)
      | none =>
        match upload_photos_to_google_drive fault d files cat_id cat_name with
        | .httpExc st dt => .error (.http st dt, s, d)
        | .noneReturned => .error (.typeError, s, d)
        | .ok (urls, folder_id, d') =>
          if urls.isEmpty || folder_id == "" then
            .error (.valueError "Unable to upload photos to Google Drive.", s, d')
          else
            .ok ((urls, folder_id), s.modify (insertPhotosFold urls cat_id), d'))

/-- `service.create_cat_with_photos`: insert the cat (flush), then — when
files were supplied (`if files:` is false for `None` and for an empty
list) — validate and upload them, flush the photo rows, record the folder
id, and only then commit; on any failure roll back and re-raise. -/
def create_cat_with_photos (fault : RemoteFault) (s : Session) (d : DriveState)
    (cat : CatCreate) (files : Option (List UploadFile)) : SR Unit :=
  withRollback
    (match create_cat s d cat with
    | .error e => .error e
    | .ok (db_cat, s1, d1) =>
      if (files.getD []).isEmpty then
        .ok ((), s1.commit, d1)
      else
        match upload_photos fault s1 d1 (files.getD []) db_cat.id db_cat.name with
        | .error e => .error e
        | .ok ((_, folder_id), s2, d2) =>
          .ok ((), (s2.modify (fun db => db.setCatFolder db_cat.id folder_id)).commit, d2))

/-- `service.add_photos_for_the_cat`: look the cat up, call the Drive
upload directly (no count/size/extension validation on this path), insert
one photo row per URL and commit, then record the folder id and commit
again. -/
def add_photos_for_the_cat (fault : RemoteFault) (s : Session) (d : DriveState)
    (files : List UploadFile) (cat_id : Nat) : SR Unit :=
  withRollback
    (match get_cat s d cat_id with
    | .error e => .error e
    | .ok (cat, s1, d1) =>
      match upload_photos_to_google_drive fault d1 files cat_id cat.name with
      | .httpExc st dt => .error (.http st dt, s1, d1)
      | .noneReturned => .error (.typeError, s1, d1)
      | .ok (urls, google_folder_id, d2) =>
        let s2 := (s1.modify (insertPhotosFold urls cat.id)).commit
        let s3 := (s2.modify (fun db => db.setCatFolder cat_id google_folder_id)).commit
        .ok ((), s3, d2))

/-- `service.delete_cat`: look the cat up (`HTTPException(404)` if
absent), delete its photo rows and the cat row (flushed), delete the
remote folder, then commit; any failure rolls everything back. -/
def delete_cat (fault : RemoteFault) (s : Session) (d : DriveState)
    (cat_id : Nat) : SR Unit :=
  withRollback
    (match s.current.findCat cat_id with
    | none => .error (.http 404 s!"Cat with id={cat_id} not found", s, d)
    | some db_cat =>
      let s1 := (s.modify (fun db => db.deletePhotosOfCat cat_id)).modify
        (fun db => db.deleteCatRow cat_id)
      match delete_photos_from_drive fault d cat_id db_cat.name with
      | .httpExc st dt => .error (.http st dt, s1, d)
      | .noneReturned => .ok ((), s1.commit, d)
      | .ok d2 => .ok ((), s1.commit, d2))

/-- `service.update_cat_in_db`: apply the fields present in
`cat_update.dict(exclude_unset=True)` to the row and commit. -/
def update_cat_in_db (s : Session) (d : DriveState) (db_cat : CatRow)
    (cat_update : CatUpdate) : SR CatRow :=
  let s1 := (s.modify (fun db => db.applyCatUpdate db_cat.id cat_update)).commit
  .ok (applyUpdate cat_update db_cat, s1, d)

/-- `service.update_cat`: look the cat up, commit the local field update,
then unconditionally call the Drive folder rename with the cat's (possibly
`None`) folder id; a falsy rename result raises `HTTPException(500)`; on
failure the rollback finds nothing pending, the local update stays
committed. -/
def update_cat (fault : RemoteFault) (s : Session) (d : DriveState)
    (cat_id : Nat) (cat_update : CatUpdate) : SR CatRow :=
  withRollback
    (match get_cat s d cat_id with
    | .error e => .error e
    | .ok (db_cat, s1, d1) =>
      match update_cat_in_db s1 d1 db_cat cat_update with
      | .error e => .error e
      | .ok (db_cat', s2, d2) =>
        match update_google_folder_name fault d2 db_cat'.google_folder_id
            cat_id db_cat'.name with
        | .httpExc st dt => .error (.http st dt, s2, d2)
        | .noneReturned =>
          .error (.http 500
            "Failed to update the name of the photos folder in Google Drive", s2, d2)
        | .ok d3 => .ok (db_cat', s2.commit, d3))

/-- `service.delete_photo`: look the cat and the photo up, check
ownership (`HTTPException(400)` on mismatch), delete the remote file when
a Drive file id is present, then delete the row and commit. -/
def delete_photo (fault : RemoteFault) (s : Session) (d : DriveState)
    (photo_id : Nat) (cat_id : Nat) : SR Unit :=
  withRollback
    (match get_cat s d cat_id with
    | .error e => .error e
    | .ok (cat, s1, d1) =>
      match get_photo s1 d1 photo_id with
      | .error e => .error e
      | .ok (photo, s2, d2) =>
        if !(photo.cat_id == cat.id) then
          .error (.http 400 "Photo does not belong to the cat", s2, d2)
        else
          let next := fun (d3 : DriveState) =>
            .ok ((), (s2.modify (fun db => db.deletePhotoRow photo_id)).commit, d3)
          if !(photo.google_file_id == "") then
            match delete_google_drive_file fault d2 photo.google_file_id with
            | .httpExc st dt => .error (.http st dt, s2, d2)
            | .noneReturned => next d2
            | .ok d3 => next d3
          else next d2)

/-- The names `router.py` imports from `cats.service` (lines 6-15). -/
def routerServiceImports : List String :=
  ["add_photos_for_the_cat", "create_cat_with_photos", "delete_cat",
   "delete_photo", "get_cat", "get_cat_and_photo", "get_cats", "update_cat"]

/-- The functions `service.py` actually defines at module level. -/
def serviceModuleDefs : List String :=
  ["get_cat", "get_photo", "get_cats", "create_cat", "upload_photos",
   "create_cat_with_photos", "add_photos_for_the_cat", "delete_cat",
   "update_cat_in_db", "update_cat", "delete_photo"]

/-- The parameters of `service.delete_photo`, all required (no defaults). -/
def delete_photo_params : List String := ["db", "photo_id", "cat_id"]

/-- The arguments the router's `delete_cat_photo_handler` passes in its
call `delete_photo(db=db, photo_id=photo_id)` (router.py line 111). -/
def delete_cat_photo_handler_call_args : List String := ["db", "photo_id"]

/-! Concrete fixtures used by the concrete theorems below. -/

/-- A cat row with no photos and no Drive folder. -/
def tomCat : CatRow := ⟨1, "Tom", 2, "male", "friendly", true, 0, 0, none⟩

/-- A database holding only `tomCat`. -/
def dbOneCat : DBState := ⟨[tomCat], [], 2, 1⟩

/-- An empty database as the service starts (autoincrement counters at 1). -/
def emptyDB : DBState := ⟨[], [], 1, 1⟩

/-- An empty Drive store. -/
def emptyDrive : DriveState := ⟨[], [], 0⟩

/-- A text attachment with a disallowed extension. -/
def txtFile : UploadFile := ⟨"notes.txt", "text/plain", 100⟩

/-- A small valid JPEG attachment. -/
def jpgFile : UploadFile := ⟨"a.jpg", "image/jpeg", 100⟩

/-- Eleven copies of the valid JPEG attachment. -/
def elevenJpg : List UploadFile := List.replicate 11 jpgFile

/-- The creation payload for `tomCat`. -/
def tomCreate : CatCreate := ⟨"Tom", 2, "male", "friendly", true⟩

/-- C8: the delete-single-photo HTTP route cannot run to completion:
`router.py` imports `get_cat_and_photo` from `cats.service`, but
`service.py` defines no such function, and the handler's call
`delete_photo(db=db, photo_id=photo_id)` omits the required `cat_id`
parameter of `delete_photo(db, photo_id, cat_id)`. -/
theorem c8_delete_photo_route_cannot_run :
    "get_cat_and_photo" ∈ routerServiceImports ∧
    "get_cat_and_photo" ∉ serviceModuleDefs ∧
    "cat_id" ∈ delete_photo_params ∧
    "cat_id" ∉ delete_cat_photo_handler_call_args := by decide

/-- C9: the Gateway's failure classification is not total.  A remote
`HttpError` whose status is neither 401 nor 404 (e.g. 403 or 500) matches
the `except HttpError` clause of each `utils.py` function, neither branch
of which raises, so the function silently returns `None` instead of
raising a ServiceFailure; moreover a folder missing during
`delete_photos_from_drive` surfaces as a 500 ServiceFailure, not as
NotFound, because the `HTTPException(404)` raised inside the `try` block
is re-caught by the blanket `except Exception` clause. -/
theorem c9_unclassified_remote_failures_swallowed :
    upload_photos_to_google_drive (.httpError 403) emptyDrive [jpgFile] 1 "Tom"
      = .noneReturned ∧
    delete_photos_from_drive (.httpError 403) emptyDrive 1 "Tom"
      = .noneReturned ∧
    update_google_folder_name (.httpError 500) emptyDrive (some "gid1") 1 "Tom"
      = .noneReturned ∧
    delete_google_drive_file (.httpError 403) emptyDrive "gid2"
      = .noneReturned ∧
    delete_photos_from_drive .noFault emptyDrive 1 "Tom"
      = .httpExc 500 "Failed to delete photos from Google Drive" :=
  ⟨rfl, rfl, rfl, rfl, rfl⟩

/-- C1: deleting a cat that has no photos and no external-store folder
does NOT remove its row: `delete_cat` unconditionally calls
`delete_photos_from_drive`, whose folder lookup fails and surfaces as
`HTTPException(500)`, so the whole transaction is rolled back and the cat
(still committed) remains retrievable. -/
theorem c1_delete_cat_fails_without_drive_folder :
    delete_cat .noFault (mkSession dbOneCat) emptyDrive 1 =
      .error (.http 500 "Failed to delete photos from Google Drive",
              mkSession dbOneCat, emptyDrive) ∧
    (finalCommitted (delete_cat .noFault (mkSession dbOneCat) emptyDrive 1)).findCat 1
      = some tomCat :=
  ⟨rfl, rfl⟩

/-- C3 counterexample: adding a `.txt` file to an existing cat through
`add_photos_for_the_cat` is NOT rejected — the function calls
`upload_photos_to_google_drive` directly, bypassing the extension check,
and a Photo row is committed for the disallowed file. -/
theorem c3_add_photos_accepts_bad_extension :
    srOk (add_photos_for_the_cat .noFault (mkSession dbOneCat) emptyDrive [txtFile] 1)
      = true ∧
    (finalCommitted
        (add_photos_for_the_cat .noFault (mkSession dbOneCat) emptyDrive [txtFile] 1)).photos
      = [⟨1, "https://drive.google.com/uc?id=gid2", 1, "gid2"⟩] := by
  exact ⟨rfl, by rfl⟩

/-- C4: neither upload limit behaves as claimed.  Eleven files added
through `add_photos_for_the_cat` are all uploaded and committed (that path
has no count/size/extension validation); in the create path the count and
size violations raise a Python `ValueError` (an internal server error),
not a BadRequest-class `HTTPException`; and the 5 MiB size check only
applies to files whose declared content type starts with `image/`, so an
oversized file with a non-image content type is uploaded. -/
theorem c4_upload_limits_not_enforced :
    srOk (add_photos_for_the_cat .noFault (mkSession dbOneCat) emptyDrive elevenJpg 1)
      = true ∧
    (finalCommitted
        (add_photos_for_the_cat .noFault (mkSession dbOneCat) emptyDrive elevenJpg 1)).photos.length
      = 11 ∧
    create_cat_with_photos .noFault (mkSession emptyDB) emptyDrive tomCreate (some elevenJpg)
      = .error (.valueError "Maximum number of photos exceeded.",
                mkSession emptyDB, emptyDrive) ∧
    create_cat_with_photos .noFault (mkSession emptyDB) emptyDrive tomCreate
        (some [⟨"big.jpg", "image/jpeg", 10000000⟩])
      = .error (.valueError "Maximum photo size exceeded.",
                mkSession emptyDB, emptyDrive) ∧
    srOk (create_cat_with_photos .noFault (mkSession emptyDB) emptyDrive tomCreate
        (some [⟨"big.jpg", "text/plain", 10000000⟩]))
      = true := by
  refine ⟨rfl, by rfl, rfl, by rfl, by rfl⟩

/-- The update payload that sets only `age := 5` (pydantic would report
only `age` in `__fields_set__`). -/
def ageOnlyUpdate : CatUpdate :=
  ⟨"Tom", 5, "male", "friendly", true, false, true, false, false, false⟩

/-- `tomCat` after the age-only update. -/
def tomCatAge5 : CatRow := ⟨1, "Tom", 5, "male", "friendly", true, 0, 0, none⟩

/-- The database after the age-only update of `tomCat`. -/
def dbOneCatAge5 : DBState := ⟨[tomCatAge5], [], 2, 1⟩

/-- C6 counterexample: an update that does not change the cat's name (only
`age` is set) still triggers the external folder rename — `update_cat`
calls `update_google_folder_name` unconditionally — and for this cat
(which has no folder id) the rename fails with a 500, while the
already-committed age update is not rolled back. -/
theorem c6_rename_attempted_when_name_unchanged :
    update_cat .noFault (mkSession dbOneCat) emptyDrive 1 ageOnlyUpdate =
      .error (.http 500 "Failed to update folder name in Google Drive",
              mkSession dbOneCatAge5, emptyDrive) :=
  rfl

/-! Helper lemmas about the session plumbing and the photo-insertion fold. -/

/-- Rolling back twice is the same as rolling back once. -/
theorem Session.rollback_rollback (s : Session) : s.rollback.rollback = s.rollback := rfl

/-- Rolling back a fresh session is the identity. -/
theorem mkSession_rollback (db : DBState) : (mkSession db).rollback = mkSession db := rfl

/-- An error coming out of `withRollback` is the inner error with the
session rolled back. -/
theorem withRollback_error {α : Type} (r : SR α) (e : AppError) (s' : Session)
    (d' : DriveState) (h : withRollback r = .error (e, s', d')) :
    ∃ s0, r = .error (e, s0, d') ∧ s' = s0.rollback := by
  cases r with
  | ok x => simp [withRollback] at h
  | error t =>
    obtain ⟨e0, s0, d0⟩ := t
    simp only [withRollback] at h
    obtain ⟨he, hs, hd⟩ := by simpa using h
    exact ⟨s0, by simp [he, hd], hs.symm⟩

/-- A success coming out of `withRollback` is the inner success. -/
theorem withRollback_ok {α : Type} (r : SR α) (x : α × Session × DriveState)
    (h : withRollback r = .ok x) : r = .ok x := by
  cases r with
  | ok y => simpa [withRollback] using h
  | error t => obtain ⟨e0, s0, d0⟩ := t; simp [withRollback] at h

/-- The photo-insertion fold does not touch the cats table. -/
theorem insertPhotosFold_cats (urls : List String) (cid : Nat) (db : DBState) :
    (insertPhotosFold urls cid db).cats = db.cats := by
  induction urls generalizing db with
  | nil => rfl
  | cons u rest ih =>
    simp only [insertPhotosFold, List.foldl_cons] at *
    exact ih (db.insertPhoto u cid (googleFileIdOfUrl u))

/-- The photo-insertion fold does not touch the cat-id counter. -/
theorem insertPhotosFold_nextCatId (urls : List String) (cid : Nat) (db : DBState) :
    (insertPhotosFold urls cid db).nextCatId = db.nextCatId := by
  induction urls generalizing db with
  | nil => rfl
  | cons u rest ih =>
    simp only [insertPhotosFold, List.foldl_cons] at *
    exact ih (db.insertPhoto u cid (googleFileIdOfUrl u))

/-- Every photo row present after the photo-insertion fold either was
there before or belongs to the cat the fold inserts for. -/
theorem insertPhotosFold_photos_mem (urls : List String) (cid : Nat) (db : DBState) :
    ∀ p ∈ (insertPhotosFold urls cid db).photos, p ∈ db.photos ∨ p.cat_id = cid := by
  induction urls generalizing db with
  | nil => intro p hp; exact Or.inl hp
  | cons u rest ih =>
    intro p hp
    simp only [insertPhotosFold, List.foldl_cons] at hp
    rcases ih (db.insertPhoto u cid (googleFileIdOfUrl u)) p hp with h | h
    · simp only [DBState.insertPhoto, List.mem_append, List.mem_singleton] at h
      rcases h with h | h
      · exact Or.inl h
      · subst h; exact Or.inr rfl
    · exact Or.inr h

/-- C7: a delete-photo request whose photo belongs to a different cat than
the one named in the URL fails with `HTTPException(400)` before touching
the Drive store or the database: the returned session and drive state are
exactly the initial ones, so the photo row and its remote file survive. -/
theorem c7_delete_photo_ownership_mismatch_rejected
    (db : DBState) (d : DriveState) (fault : RemoteFault) (pid cid : Nat)
    (cat : CatRow) (photo : PhotoRow)
    (hc : db.findCat cid = some cat)
    (hp : db.findPhoto pid = some photo)
    (hm : photo.cat_id ≠ cat.id) :
    delete_photo fault (mkSession db) d pid cid =
      .error (.http 400 "Photo does not belong to the cat", mkSession db, d) := by
  have hbeq : (photo.cat_id == cat.id) = false := beq_eq_false_iff_ne.mpr hm
  simp [delete_photo, get_cat, get_photo, withRollback, mkSession,
        Session.rollback, hc, hp, hbeq]

/-- A database containing `tomCat` and one photo owned by a different cat. -/
def strayPhoto : PhotoRow := ⟨5, "u", 2, ""⟩

/-- Database fixture for the ownership-mismatch witness. -/
def dbMismatch : DBState := ⟨[tomCat], [strayPhoto], 2, 6⟩

/-- Witness for C7 at a concrete state: photo 5 belongs to cat 2, the
request names cat 1, and the call fails with 400 leaving everything
untouched. -/
theorem c7_delete_photo_ownership_mismatch_rejected_witness :
    delete_photo .noFault (mkSession dbMismatch) emptyDrive 5 1 =
      .error (.http 400 "Photo does not belong to the cat", mkSession dbMismatch, emptyDrive) :=
  c7_delete_photo_ownership_mismatch_rejected dbMismatch emptyDrive .noFault 5 1
    tomCat strayPhoto rfl rfl (by decide)

/-- C10: `update_cat_in_db` applies exactly the fields recorded as set in
the payload (pydantic's `__fields_set__`, which `dict(exclude_unset=True)`
filters by): every unset payload field and every attribute outside the
payload (id, views, registration timestamp, folder id) keeps its value,
every other row is untouched, the result is committed; and `update_cat`
on an id that is not in the database fails with
`HTTPException(404, "Cat not found")`. -/
theorem c10_partial_update_semantics
    (db : DBState) (d : DriveState) (cid : Nat) (upd : CatUpdate)
    (fault : RemoteFault) :
    (∀ c, db.findCat cid = some c →
      update_cat_in_db (mkSession db) d c upd =
        .ok (applyUpdate upd c, mkSession (db.applyCatUpdate c.id upd), d) ∧
      ((applyUpdate upd c).id = c.id ∧
        (applyUpdate upd c).views = c.views ∧
        (applyUpdate upd c).registered_at = c.registered_at ∧
        (applyUpdate upd c).google_folder_id = c.google_folder_id) ∧
      ((upd.name_set = false → (applyUpdate upd c).name = c.name) ∧
        (upd.age_set = false → (applyUpdate upd c).age = c.age) ∧
        (upd.gender_set = false → (applyUpdate upd c).gender = c.gender) ∧
        (upd.about_set = false → (applyUpdate upd c).about = c.about) ∧
        (upd.sterilized_set = false →
          (applyUpdate upd c).sterilized = c.sterilized)) ∧
      ((upd.name_set = true → (applyUpdate upd c).name = upd.name) ∧
        (upd.age_set = true → (applyUpdate upd c).age = upd.age) ∧
        (upd.gender_set = true → (applyUpdate upd c).gender = upd.gender) ∧
        (upd.about_set = true → (applyUpdate upd c).about = upd.about) ∧
        (upd.sterilized_set = true →
          (applyUpdate upd c).sterilized = upd.sterilized)) ∧
      (∀ x ∈ db.cats, x.id ≠ c.id → x ∈ (db.applyCatUpdate c.id upd).cats)) ∧
    (db.findCat cid = none →
      update_cat fault (mkSession db) d cid upd =
        .error (.http 404 "Cat not found", mkSession db, d)) := by
  constructor
  · intro c _
    refine ⟨?_, ?_, ?_, ?_, ?_⟩
    · simp [update_cat_in_db, mkSession, Session.modify, Session.commit]
    · simp [applyUpdate]
    · refine ⟨?_, ?_, ?_, ?_, ?_⟩ <;> intro h <;> simp [applyUpdate, h]
    · refine ⟨?_, ?_, ?_, ?_, ?_⟩ <;> intro h <;> simp [applyUpdate, h]
    · intro x hx hne
      have hbeq : (x.id == c.id) = false := beq_eq_false_iff_ne.mpr hne
      have hmem := List.mem_map_of_mem
        (fun y => if y.id == c.id then applyUpdate upd y else y) hx
      simpa [DBState.applyCatUpdate, hbeq] using hmem
  · intro hnone
    simp [update_cat, get_cat, update_cat_in_db, withRollback, mkSession,
          Session.rollback, hnone]

/-- The cat with id 7 used by the update witnesses. -/
def maxCat : CatRow := ⟨7, "Max", 4, "male", "shy", false, 0, 0, some "gid9"⟩

/-- A database holding only `maxCat`. -/
def dbMax : DBState := ⟨[maxCat], [], 8, 1⟩

/-- The update payload that sets only `about`. -/
def aboutOnlyUpdate : CatUpdate :=
  ⟨"", 0, "", "now friendly", false, false, false, false, true, false⟩

/-- Witness for C10: a concrete about-only update of `maxCat` is applied
with every other field untouched, and updating a missing id 99 returns
404. -/
theorem c10_partial_update_semantics_witness :
    (update_cat_in_db (mkSession dbMax) emptyDrive maxCat aboutOnlyUpdate =
       .ok (applyUpdate aboutOnlyUpdate maxCat,
            mkSession (dbMax.applyCatUpdate maxCat.id aboutOnlyUpdate), emptyDrive) ∧
     (applyUpdate aboutOnlyUpdate maxCat).name = maxCat.name ∧
     (applyUpdate aboutOnlyUpdate maxCat).about = "now friendly") ∧
    update_cat .noFault (mkSession dbMax) emptyDrive 99 aboutOnlyUpdate =
      .error (.http 404 "Cat not found", mkSession dbMax, emptyDrive) := by
  have h := c10_partial_update_semantics dbMax emptyDrive 99 aboutOnlyUpdate .noFault
  have hpos := c10_partial_update_semantics dbMax emptyDrive 7 aboutOnlyUpdate .noFault
  obtain ⟨h1, _, h3, h4, _⟩ := hpos.1 maxCat rfl
  exact ⟨⟨h1, h3.1 rfl, h4.2.2.2.1 rfl⟩, h.2 rfl⟩

/-- Injectivity of a successful service result, component-wise. -/
theorem sr_ok_inj {α : Type} (a1 a2 : α) (s1 s2 : Session) (d1 d2 : DriveState)
    (h : (.ok (a1, s1, d1) : SR α) = .ok (a2, s2, d2)) :
    a1 = a2 ∧ s1 = s2 ∧ d1 = d2 := by
  injection h with h1
  injection h1 with ha h2
  injection h2 with hs hd
  exact ⟨ha, hs, hd⟩

/-- Injectivity of a failed service result, component-wise. -/
theorem sr_error_inj {α : Type} (e1 e2 : AppError) (s1 s2 : Session)
    (d1 d2 : DriveState)
    (h : (.error (e1, s1, d1) : SR α) = .error (e2, s2, d2)) :
    e1 = e2 ∧ s1 = s2 ∧ d1 = d2 := by
  injection h with h1
  injection h1 with ha h2
  injection h2 with hs hd
  exact ⟨ha, hs, hd⟩

/-- Any error escaping `upload_photos` leaves the session rolled back to
its committed state: the function flushes photo rows but never commits. -/
theorem upload_photos_error_session
    (fault : RemoteFault) (s : Session) (d : DriveState)
    (files : List UploadFile) (cid : Nat) (cname : String)
    (e : AppError) (s' : Session) (d' : DriveState)
    (h : upload_photos fault s d files cid cname = .error (e, s', d')) :
    s' = s.rollback := by
  unfold upload_photos at h
  obtain ⟨s0, hinner, hs⟩ := withRollback_error _ _ _ _ h
  subst hs
  split at hinner
  · obtain ⟨-, h2, -⟩ := by simpa using hinner
    simp [h2]
  · split at hinner
    · obtain ⟨-, h2, -⟩ := by simpa using hinner
      simp [h2]
    · split at hinner
      · obtain ⟨-, h2, -⟩ := by simpa using hinner
        simp [h2]
      · split at hinner
        · obtain ⟨-, h2, -⟩ := by simpa using hinner
          simp [h2]
        · obtain ⟨-, h2, -⟩ := by simpa using hinner
          simp [h2]
        · split at hinner
          · obtain ⟨-, h2, -⟩ := by simpa using hinner
            simp [h2]
          · simp at hinner

/-- A success of `upload_photos` returns a non-empty URL list and the
input session with one flushed photo row per URL (still uncommitted). -/
theorem upload_photos_ok_session
    (fault : RemoteFault) (s : Session) (d : DriveState)
    (files : List UploadFile) (cid : Nat) (cname : String)
    (urls : List String) (fid : String) (s' : Session) (d' : DriveState)
    (h : upload_photos fault s d files cid cname = .ok ((urls, fid), s', d')) :
    s' = s.modify (insertPhotosFold urls cid) ∧ urls ≠ [] := by
  unfold upload_photos at h
  have hinner := withRollback_ok _ _ h
  split at hinner
  · simp at hinner
  · split at hinner
    · simp at hinner
    · split at hinner
      · simp at hinner
      · split at hinner
        · simp at hinner
        · simp at hinner
        · split at hinner
          · simp at hinner
          · rename_i hguard
            obtain ⟨hpair, hs, -⟩ := sr_ok_inj _ _ _ _ _ _ hinner
            injection hpair with hu hf
            subst hu
            refine ⟨hs.symm, ?_⟩
            intro hnil
            subst hnil
            simp at hguard

/-- C2: `create_cat_with_photos` is atomic.  If any step fails — the
validation, the remote upload, the photo-row flushes or the folder-id
recording — the escaping error carries a session whose committed state is
the initial database, i.e. no Cat row and no Photo row was committed; on
success everything flushed has been committed in a single final commit
and the new cat's id is present in the committed state. -/
theorem c2_create_cat_with_photos_atomic
    (fault : RemoteFault) (db : DBState) (d : DriveState)
    (cat : CatCreate) (files : Option (List UploadFile)) :
    (∀ e s' d', create_cat_with_photos fault (mkSession db) d cat files
        = .error (e, s', d') → s'.committed = db) ∧
    (∀ u s' d', create_cat_with_photos fault (mkSession db) d cat files
        = .ok (u, s', d') →
      s'.committed = s'.current ∧
      (s'.committed.findCat db.nextCatId).isSome = true) := by
  have hcreate : create_cat (mkSession db) d cat
      = .ok ((db.insertCat cat).1, ⟨db, (db.insertCat cat).2⟩, d) := rfl
  have hrowmem : (db.insertCat cat).1 ∈ (db.insertCat cat).2.cats := by
    simp [DBState.insertCat]
  have hrowid : ((db.insertCat cat).1.id == db.nextCatId) = true := by
    simp [DBState.insertCat]
  constructor
  · intro e s' d' h
    unfold create_cat_with_photos at h
    obtain ⟨s0, hinner, hs⟩ := withRollback_error _ _ _ _ h
    subst hs
    rw [hcreate] at hinner
    simp only [] at hinner
    by_cases hemp : (files.getD []).isEmpty = true
    · rw [if_pos hemp] at hinner
      exact Except.noConfusion hinner
    · rw [if_neg hemp] at hinner
      cases hup : upload_photos fault ⟨db, (db.insertCat cat).2⟩ d (files.getD [])
          (db.insertCat cat).1.id (db.insertCat cat).1.name with
      | error t =>
        obtain ⟨e0, s2, d2⟩ := t
        rw [hup] at hinner
        simp only [] at hinner
        obtain ⟨-, hs2, -⟩ := sr_error_inj _ _ _ _ _ _ hinner
        have hroll := upload_photos_error_session _ _ _ _ _ _ _ _ _ hup
        rw [← hs2, hroll]
        rfl
      | ok t =>
        obtain ⟨⟨urls, fid⟩, s2, d2⟩ := t
        rw [hup] at hinner
        simp only [] at hinner
        exact Except.noConfusion hinner
  · intro u s' d' h
    unfold create_cat_with_photos at h
    have hinner := withRollback_ok _ _ h
    rw [hcreate] at hinner
    simp only [] at hinner
    by_cases hemp : (files.getD []).isEmpty = true
    · rw [if_pos hemp] at hinner
      obtain ⟨-, hs, -⟩ := sr_ok_inj _ _ _ _ _ _ hinner
      rw [← hs]
      refine ⟨rfl, ?_⟩
      exact List.find?_isSome.mpr ⟨_, hrowmem, hrowid⟩
    · rw [if_neg hemp] at hinner
      cases hup : upload_photos fault ⟨db, (db.insertCat cat).2⟩ d (files.getD [])
          (db.insertCat cat).1.id (db.insertCat cat).1.name with
      | error t =>
        obtain ⟨e0, s2, d2⟩ := t
        rw [hup] at hinner
        simp only [] at hinner
        exact Except.noConfusion hinner
      | ok t =>
        obtain ⟨⟨urls, fid⟩, s2, d2⟩ := t
        rw [hup] at hinner
        simp only [] at hinner
        obtain ⟨-, hs, -⟩ := sr_ok_inj _ _ _ _ _ _ hinner
        obtain ⟨hs2, -⟩ := upload_photos_ok_session _ _ _ _ _ _ _ _ _ _ hup
        subst hs2
        rw [← hs]
        refine ⟨rfl, ?_⟩
        simp only [Session.commit, Session.modify]
        apply List.find?_isSome.mpr
        refine ⟨(if ((db.insertCat cat).1.id == (db.insertCat cat).1.id)
                  then { (db.insertCat cat).1 with google_folder_id := some fid }
                  else (db.insertCat cat).1), ?_, ?_⟩
        · unfold DBState.setCatFolder
          simp only []
          rw [insertPhotosFold_cats]
          exact List.mem_map_of_mem _ hrowmem
        · simp only [beq_self_eq_true, if_true]
          simpa using hrowid

/-- The cat row committed by the successful one-photo creation run. -/
def tomCatWithFolder : CatRow := ⟨1, "Tom", 2, "male", "friendly", true, 0, 0, some "gid1"⟩

/-- The photo row committed by the successful one-photo creation run. -/
def tomPhoto : PhotoRow := ⟨1, "https://drive.google.com/uc?id=gid2", 1, "gid2"⟩

/-- The committed database after creating Tom with one photo. -/
def dbTomWithPhoto : DBState := ⟨[tomCatWithFolder], [tomPhoto], 2, 2⟩

/-- The Drive state after creating Tom with one photo from an empty store. -/
def driveAfterCreate : DriveState :=
  ⟨[⟨"gid0", "Photos of cats", none⟩, ⟨"gid1", "1 - Tom", some "gid0"⟩],
   [⟨"gid2", "a.jpg", "gid1"⟩], 3⟩

/-- Witness for C2 at concrete inputs: a successful creation commits the
new cat (and its photo), and a failing creation (eleven files) leaves
the committed state untouched. -/
theorem c2_create_cat_with_photos_atomic_witness :
    (create_cat_with_photos .noFault (mkSession emptyDB) emptyDrive tomCreate (some [jpgFile])
        = .ok ((), mkSession dbTomWithPhoto, driveAfterCreate) ∧
      (mkSession dbTomWithPhoto).committed = (mkSession dbTomWithPhoto).current ∧
      ((mkSession dbTomWithPhoto).committed.findCat emptyDB.nextCatId).isSome = true) ∧
    (create_cat_with_photos .noFault (mkSession emptyDB) emptyDrive tomCreate (some elevenJpg)
        = .error (.valueError "Maximum number of photos exceeded.",
                  mkSession emptyDB, emptyDrive) ∧
      (mkSession emptyDB).committed = emptyDB) := by
  have hok : create_cat_with_photos .noFault (mkSession emptyDB) emptyDrive tomCreate
      (some [jpgFile]) = .ok ((), mkSession dbTomWithPhoto, driveAfterCreate) := by rfl
  have herr : create_cat_with_photos .noFault (mkSession emptyDB) emptyDrive tomCreate
      (some elevenJpg) = .error (.valueError "Maximum number of photos exceeded.",
        mkSession emptyDB, emptyDrive) := by rfl
  refine ⟨⟨hok, ?_⟩, herr, ?_⟩
  · exact (c2_create_cat_with_photos_atomic .noFault emptyDB emptyDrive tomCreate
      (some [jpgFile])).2 () (mkSession dbTomWithPhoto) driveAfterCreate hok
  · exact (c2_create_cat_with_photos_atomic .noFault emptyDB emptyDrive tomCreate
      (some elevenJpg)).1 _ (mkSession emptyDB) emptyDrive herr

/-- C3 (amended): only the create path validates extensions.  When a cat
is created with attached files, at most 10 of them, none oversized for an
image content type, and some file's extension outside
jpg/jpeg/png/gif, the operation fails with `HTTPException(400)` naming
the first offending file, before any remote call, and both the database
and the Drive store are returned untouched (so no Photo row is created).
The add-photos path performs no such validation (see the
counterexample). -/
theorem c3_create_path_rejects_bad_extension
    (db : DBState) (d : DriveState) (fault : RemoteFault) (cat : CatCreate)
    (files : List UploadFile) (f0 : UploadFile)
    (h10 : files.length ≤ 10)
    (hsize : files.find?
      (fun f => strStartsWith f.content_type "image/" && f.size > 5242880) = none)
    (hext : files.find? (fun f => !(hasAllowedExtension f.filename)) = some f0) :
    create_cat_with_photos fault (mkSession db) d cat (some files) =
      .error (.http 400 (invalidTypeDetail f0.filename), mkSession db, d) := by
  have hne : files ≠ [] := by
    intro he; subst he; simp at hext
  have hemp : files.isEmpty = false := by
    simp [List.isEmpty_eq_false, hne]
  have hup : upload_photos fault ⟨db, (db.insertCat cat).2⟩ d files
      (db.insertCat cat).1.id (db.insertCat cat).1.name
      = .error (.http 400 (invalidTypeDetail f0.filename), ⟨db, db⟩, d) := by
    unfold upload_photos
    rw [if_neg (by omega), hsize]
    simp only []
    rw [hext]
    simp only []
    rfl
  unfold create_cat_with_photos
  rw [show create_cat (mkSession db) d cat
        = .ok ((db.insertCat cat).1, ⟨db, (db.insertCat cat).2⟩, d) from rfl]
  simp only [Option.getD_some]
  rw [if_neg (by simp [hemp])]
  rw [hup]
  simp only []
  rfl

/-- Witness for C3's amended theorem: creating a cat with a single `.txt`
attachment fails with the 400 invalid-file-type error and changes
nothing. -/
theorem c3_create_path_rejects_bad_extension_witness :
    create_cat_with_photos .noFault (mkSession emptyDB) emptyDrive tomCreate (some [txtFile]) =
      .error (.http 400 (invalidTypeDetail "notes.txt"), mkSession emptyDB, emptyDrive) :=
  c3_create_path_rejects_bad_extension emptyDB emptyDrive .noFault tomCreate
    [txtFile] txtFile (by decide) (by decide) (by decide)

/-- C6 (amended): `update_cat` attempts the external folder rename on
every update, whether or not the name changed: after the local field
update is committed, `update_google_folder_name` is called
unconditionally with the cat's (possibly NULL) folder id.  In particular,
for a cat with no folder id the fault-free run always fails with the 500
rename error even if the payload left the name untouched; and whenever
`update_cat` raises, the committed state still contains the applied field
update — the local commit is not rolled back. -/
theorem c6_update_always_renames_and_keeps_commit
    (db : DBState) (d : DriveState) (fault : RemoteFault) (cid : Nat)
    (upd : CatUpdate) (c : CatRow)
    (hc : db.findCat cid = some c) :
    (c.google_folder_id = none → fault = .noFault →
      update_cat fault (mkSession db) d cid upd =
        .error (.http 500 "Failed to update folder name in Google Drive",
                mkSession (db.applyCatUpdate c.id upd), d)) ∧
    (∀ e s' d', update_cat fault (mkSession db) d cid upd = .error (e, s', d') →
      s'.committed = db.applyCatUpdate c.id upd) := by
  have hgc : get_cat (mkSession db) d cid = .ok (c, mkSession db, d) := by
    simp [get_cat, mkSession, hc]
  have hupd : update_cat_in_db (mkSession db) d c upd
      = .ok (applyUpdate upd c, mkSession (db.applyCatUpdate c.id upd), d) := rfl
  have hfold : (applyUpdate upd c).google_folder_id = c.google_folder_id := rfl
  constructor
  · intro hnone hfault
    subst hfault
    unfold update_cat
    rw [hgc]
    simp only []
    rw [hupd]
    simp only []
    rw [hfold, hnone]
    rfl
  · intro e s' d' h
    unfold update_cat at h
    rw [hgc] at h
    simp only [] at h
    rw [hupd] at h
    simp only [] at h
    cases hren : update_google_folder_name fault d (applyUpdate upd c).google_folder_id
        cid (applyUpdate upd c).name with
    | ok d3 =>
      rw [hren] at h
      simp only [withRollback] at h
      exact Except.noConfusion h
    | noneReturned =>
      rw [hren] at h
      simp only [withRollback] at h
      obtain ⟨-, hs, -⟩ := sr_error_inj _ _ _ _ _ _ h
      rw [← hs]
      rfl
    | httpExc st dt =>
      rw [hren] at h
      simp only [withRollback] at h
      obtain ⟨-, hs, -⟩ := sr_error_inj _ _ _ _ _ _ h
      rw [← hs]
      rfl

/-- Witness for C6's amended theorem: an about-only update of a cat with
no folder id fails with the 500 rename error while the about field stays
committed. -/
theorem c6_update_always_renames_and_keeps_commit_witness :
    update_cat .noFault (mkSession dbOneCat) emptyDrive 1 aboutOnlyUpdate =
      .error (.http 500 "Failed to update folder name in Google Drive",
              mkSession (dbOneCat.applyCatUpdate tomCat.id aboutOnlyUpdate), emptyDrive) :=
  (c6_update_always_renames_and_keeps_commit dbOneCat emptyDrive .noFault 1
    aboutOnlyUpdate tomCat rfl).1 rfl rfl

/-- The inductive invariant for the reachable committed states: cat ids
are below the autoincrement counter, photo back-references point below it
too, and any cat owning at least one photo row has its folder id set. -/
def StrongInv (db : DBState) : Prop :=
  (∀ c ∈ db.cats, c.id < db.nextCatId) ∧
  (∀ p ∈ db.photos, p.cat_id < db.nextCatId) ∧
  (∀ c ∈ db.cats, (∃ p ∈ db.photos, p.cat_id = c.id) → c.google_folder_id ≠ none)

/-- Inserting a fresh cat row preserves the invariant: the new row's id is
the counter value, below the bumped counter, and no existing photo can
reference it. -/
theorem strongInv_insertCat (db : DBState) (cat : CatCreate)
    (h : StrongInv db) : StrongInv (db.insertCat cat).2 := by
  obtain ⟨hA, hB, hC⟩ := h
  refine ⟨?_, ?_, ?_⟩
  · intro c hc
    simp only [DBState.insertCat, List.mem_append, List.mem_singleton] at hc ⊢
    rcases hc with hc | hc
    · exact Nat.lt_succ_of_lt (hA c hc)
    · subst hc; exact Nat.lt_succ_self _
  · intro p hp
    simp only [DBState.insertCat] at hp ⊢
    exact Nat.lt_succ_of_lt (hB p hp)
  · intro c hc hex
    obtain ⟨p, hp, hpc⟩ := hex
    simp only [DBState.insertCat, List.mem_append, List.mem_singleton] at hc hp
    rcases hc with hc | hc
    · exact hC c hc ⟨p, hp, hpc⟩
    · exfalso
      have hlt := hB p hp
      rw [hpc, hc] at hlt
      simp at hlt
  
/-- Appending photo rows for cat `n` and then setting cat `n`'s folder id
preserves the invariant, provided `n` is below the counter. -/
theorem strongInv_photosThenFolder (db : DBState) (urls : List String)
    (n : Nat) (fid : String) (h : StrongInv db) (hn : n < db.nextCatId) :
    StrongInv ((insertPhotosFold urls n db).setCatFolder n fid) := by
  obtain ⟨hA, hB, hC⟩ := h
  have hcats := insertPhotosFold_cats urls n db
  have hncat := insertPhotosFold_nextCatId urls n db
  have hpm := insertPhotosFold_photos_mem urls n db
  refine ⟨?_, ?_, ?_⟩
  · intro c' hc'
    simp only [DBState.setCatFolder, hncat] at hc' ⊢
    rw [hcats] at hc'
    obtain ⟨c, hc, hgc⟩ := List.mem_map.mp hc'
    have hid : c'.id = c.id := by
      subst hgc
      by_cases hcn : (c.id == n) = true <;> simp [hcn]
    rw [hid]
    exact hA c hc
  · intro p hp
    simp only [DBState.setCatFolder, hncat] at hp ⊢
    rcases hpm p hp with hold | hnew
    · exact hB p hold
    · rw [hnew]; exact hn
  · intro c' hc' hex
    obtain ⟨p, hp, hpc⟩ := hex
    simp only [DBState.setCatFolder] at hc' hp
    rw [hcats] at hc'
    obtain ⟨c, hc, hgc⟩ := List.mem_map.mp hc'
    by_cases hcn : (c.id == n) = true
    · subst hgc
      simp [hcn]
    · subst hgc
      rw [if_neg hcn] at hpc ⊢
      rcases hpm p hp with hold | hnew
      · exact hC c hc ⟨p, hold, hpc⟩
      · exact absurd (by rw [beq_iff_eq, ← hpc, hnew] : (c.id == n) = true) hcn

/-- Deleting one photo row preserves the invariant. -/
theorem strongInv_deletePhotoRow (db : DBState) (pid : Nat)
    (h : StrongInv db) : StrongInv (db.deletePhotoRow pid) := by
  obtain ⟨hA, hB, hC⟩ := h
  refine ⟨?_, ?_, ?_⟩
  · intro c hc
    simp only [DBState.deletePhotoRow] at hc ⊢
    exact hA c hc
  · intro p hp
    simp only [DBState.deletePhotoRow] at hp ⊢
    exact hB p (List.mem_of_mem_filter hp)
  · intro c hc hex
    obtain ⟨p, hp, hpc⟩ := hex
    simp only [DBState.deletePhotoRow] at hc hp
    exact hC c hc ⟨p, List.mem_of_mem_filter hp, hpc⟩

/-- Deleting a cat's photo rows and then the cat row preserves the
invariant. -/
theorem strongInv_deleteCat (db : DBState) (cid : Nat)
    (h : StrongInv db) : StrongInv ((db.deletePhotosOfCat cid).deleteCatRow cid) := by
  obtain ⟨hA, hB, hC⟩ := h
  refine ⟨?_, ?_, ?_⟩
  · intro c hc
    simp only [DBState.deleteCatRow, DBState.deletePhotosOfCat] at hc ⊢
    exact hA c (List.mem_of_mem_filter hc)
  · intro p hp
    simp only [DBState.deleteCatRow, DBState.deletePhotosOfCat] at hp ⊢
    exact hB p (List.mem_of_mem_filter hp)
  · intro c hc hex
    obtain ⟨p, hp, hpc⟩ := hex
    simp only [DBState.deleteCatRow, DBState.deletePhotosOfCat] at hc hp
    exact hC c (List.mem_of_mem_filter hc) ⟨p, List.mem_of_mem_filter hp, hpc⟩

/-- The committed state after `create_cat_with_photos` is the initial
database (any failure), the database with just the new cat row (no files
supplied), or the database with the new cat row, one photo row per
returned URL and the cat's folder id set. -/
theorem create_cwp_committed_cases
    (fault : RemoteFault) (db : DBState) (drive : DriveState) (cat : CatCreate)
    (files : Option (List UploadFile)) :
    finalCommitted (create_cat_with_photos fault (mkSession db) drive cat files) = db ∨
    finalCommitted (create_cat_with_photos fault (mkSession db) drive cat files)
      = (db.insertCat cat).2 ∨
    ∃ urls fid,
      finalCommitted (create_cat_with_photos fault (mkSession db) drive cat files)
        = ((insertPhotosFold urls (db.insertCat cat).1.id (db.insertCat cat).2).setCatFolder
            (db.insertCat cat).1.id fid) := by
  have hcreate : create_cat (mkSession db) drive cat
      = .ok ((db.insertCat cat).1, ⟨db, (db.insertCat cat).2⟩, drive) := rfl
  cases h : create_cat_with_photos fault (mkSession db) drive cat files with
  | error t =>
    obtain ⟨e, s', d'⟩ := t
    left
    show s'.committed = db
    unfold create_cat_with_photos at h
    obtain ⟨s0, hinner, hs⟩ := withRollback_error _ _ _ _ h
    subst hs
    rw [hcreate] at hinner
    simp only [] at hinner
    by_cases hemp : ((files.getD []).isEmpty = true)
    · rw [if_pos hemp] at hinner
      exact Except.noConfusion hinner
    · rw [if_neg hemp] at hinner
      cases hup : upload_photos fault ⟨db, (db.insertCat cat).2⟩ drive (files.getD [])
          (db.insertCat cat).1.id (db.insertCat cat).1.name with
      | error t2 =>
        obtain ⟨e0, s2, d2⟩ := t2
        rw [hup] at hinner
        simp only [] at hinner
        obtain ⟨-, hs2, -⟩ := sr_error_inj _ _ _ _ _ _ hinner
        have hroll := upload_photos_error_session _ _ _ _ _ _ _ _ _ hup
        rw [← hs2, hroll]
        rfl
      | ok t2 =>
        obtain ⟨⟨urls, fid⟩, s2, d2⟩ := t2
        rw [hup] at hinner
        simp only [] at hinner
        exact Except.noConfusion hinner
  | ok t =>
    obtain ⟨u, s', d'⟩ := t
    unfold create_cat_with_photos at h
    have hinner := withRollback_ok _ _ h
    rw [hcreate] at hinner
    simp only [] at hinner
    by_cases hemp : ((files.getD []).isEmpty = true)
    · rw [if_pos hemp] at hinner
      obtain ⟨-, hs, -⟩ := sr_ok_inj _ _ _ _ _ _ hinner
      right; left
      show s'.committed = (db.insertCat cat).2
      rw [← hs]
      rfl
    · rw [if_neg hemp] at hinner
      cases hup : upload_photos fault ⟨db, (db.insertCat cat).2⟩ drive (files.getD [])
          (db.insertCat cat).1.id (db.insertCat cat).1.name with
      | error t2 =>
        obtain ⟨e0, s2, d2⟩ := t2
        rw [hup] at hinner
        simp only [] at hinner
        exact Except.noConfusion hinner
      | ok t2 =>
        obtain ⟨⟨urls, fid⟩, s2, d2⟩ := t2
        rw [hup] at hinner
        simp only [] at hinner
        obtain ⟨-, hs, -⟩ := sr_ok_inj _ _ _ _ _ _ hinner
        obtain ⟨hs2, -⟩ := upload_photos_ok_session _ _ _ _ _ _ _ _ _ _ hup
        subst hs2
        right; right
        refine ⟨urls, fid, ?_⟩
        show s'.committed = _
        rw [← hs]
        rfl

/-- The committed state after `add_photos_for_the_cat` is the initial
database (any failure) or the database with one photo row per returned
URL for the looked-up cat and that cat's folder id set. -/
theorem add_photos_committed_cases
    (fault : RemoteFault) (db : DBState) (drive : DriveState)
    (files : List UploadFile) (cid : Nat) :
    finalCommitted (add_photos_for_the_cat fault (mkSession db) drive files cid) = db ∨
    ∃ c urls gfid, db.findCat cid = some c ∧
      finalCommitted (add_photos_for_the_cat fault (mkSession db) drive files cid)
        = ((insertPhotosFold urls c.id db).setCatFolder cid gfid) := by
  cases hfind : db.findCat cid with
  | none =>
    left
    have hgc : get_cat (mkSession db) drive cid
        = .error (.http 404 "Cat not found", mkSession db, drive) := by
      simp [get_cat, mkSession, hfind]
    unfold add_photos_for_the_cat
    rw [hgc]
    rfl
  | some c =>
    have hgc : get_cat (mkSession db) drive cid = .ok (c, mkSession db, drive) := by
      simp [get_cat, mkSession, hfind]
    unfold add_photos_for_the_cat
    rw [hgc]
    simp only []
    cases hup : upload_photos_to_google_drive fault drive files cid c.name with
    | ok t =>
      obtain ⟨urls, gfid, d2⟩ := t
      right
      exact ⟨c, urls, gfid, rfl, rfl⟩
    | noneReturned =>
      left
      rfl
    | httpExc st dt =>
      left
      rfl

/-- The committed state after `delete_photo` is the initial database (any
failure) or the database with one photo row removed. -/
theorem delete_photo_committed_cases
    (fault : RemoteFault) (db : DBState) (drive : DriveState)
    (pid cid : Nat) :
    finalCommitted (delete_photo fault (mkSession db) drive pid cid) = db ∨
    finalCommitted (delete_photo fault (mkSession db) drive pid cid)
      = db.deletePhotoRow pid := by
  cases hfc : db.findCat cid with
  | none =>
    left
    have hgc : get_cat (mkSession db) drive cid
        = .error (.http 404 "Cat not found", mkSession db, drive) := by
      simp [get_cat, mkSession, hfc]
    unfold delete_photo
    rw [hgc]
    rfl
  | some cat =>
    have hgc : get_cat (mkSession db) drive cid = .ok (cat, mkSession db, drive) := by
      simp [get_cat, mkSession, hfc]
    cases hfp : db.findPhoto pid with
    | none =>
      left
      have hgp : get_photo (mkSession db) drive pid
          = .error (.http 404 "Photo not found", mkSession db, drive) := by
        simp [get_photo, mkSession, hfp]
      unfold delete_photo
      rw [hgc]
      simp only []
      rw [hgp]
      rfl
    | some photo =>
      have hgp : get_photo (mkSession db) drive pid
          = .ok (photo, mkSession db, drive) := by
        simp [get_photo, mkSession, hfp]
      unfold delete_photo
      rw [hgc]
      simp only []
      rw [hgp]
      simp only []
      cases hb : (photo.cat_id == cat.id) with
      | false =>
        left
        rfl
      | true =>
        cases hg : (photo.google_file_id == "") with
        | true =>
          right
          rfl
        | false =>
          cases hdel : delete_google_drive_file fault drive photo.google_file_id with
          | ok d3 => right; rfl
          | noneReturned => right; rfl
          | httpExc st dt => left; rfl

/-- The committed state after `delete_cat` is the initial database (any
failure) or the database with the cat's photo rows and the cat row
removed. -/
theorem delete_cat_committed_cases
    (fault : RemoteFault) (db : DBState) (drive : DriveState) (cid : Nat) :
    finalCommitted (delete_cat fault (mkSession db) drive cid) = db ∨
    finalCommitted (delete_cat fault (mkSession db) drive cid)
      = (db.deletePhotosOfCat cid).deleteCatRow cid := by
  cases hfc : db.findCat cid with
  | none =>
    left
    unfold delete_cat
    rw [show (mkSession db).current.findCat cid = none from hfc]
    rfl
  | some c =>
    unfold delete_cat
    rw [show (mkSession db).current.findCat cid = some c from hfc]
    simp only []
    cases hdel : delete_photos_from_drive fault drive cid c.name with
    | ok d2 => right; rfl
    | noneReturned => right; rfl
    | httpExc st dt => left; rfl

/-- One committed-state transition of the database through a public
photo-lifecycle operation (create cat with photos, add photos, delete
photo, delete cat), run on a fresh request-scoped session against an
arbitrary Drive state and an arbitrary remote fault. -/
inductive Step : DBState → DBState → Prop where
  | createStep (fault : RemoteFault) (drive : DriveState) (cat : CatCreate)
      (files : Option (List UploadFile)) (db db' : DBState) :
      finalCommitted (create_cat_with_photos fault (mkSession db) drive cat files) = db' →
      Step db db'
  | addPhotosStep (fault : RemoteFault) (drive : DriveState)
      (files : List UploadFile) (cid : Nat) (db db' : DBState) :
      finalCommitted (add_photos_for_the_cat fault (mkSession db) drive files cid) = db' →
      Step db db'
  | deletePhotoStep (fault : RemoteFault) (drive : DriveState)
      (pid cid : Nat) (db db' : DBState) :
      finalCommitted (delete_photo fault (mkSession db) drive pid cid) = db' →
      Step db db'
  | deleteCatStep (fault : RemoteFault) (drive : DriveState)
      (cid : Nat) (db db' : DBState) :
      finalCommitted (delete_cat fault (mkSession db) drive cid) = db' →
      Step db db'

/-- The committed database states reachable from the empty database
through the public operations. -/
inductive Reachable : DBState → Prop where
  | init : Reachable emptyDB
  | step (db db' : DBState) : Reachable db → Step db db' → Reachable db'

/-- Every public operation preserves the inductive invariant. -/
theorem strongInv_step (db db' : DBState) (h : Step db db') (hInv : StrongInv db) :
    StrongInv db' := by
  cases h with
  | createStep fault drive cat files _ _ hfin =>
    subst hfin
    rcases create_cwp_committed_cases fault db drive cat files with h | h | ⟨urls, fid, h⟩
    · rw [h]; exact hInv
    · rw [h]; exact strongInv_insertCat db cat hInv
    · rw [h]
      exact strongInv_photosThenFolder _ urls _ fid (strongInv_insertCat db cat hInv)
        (by simp [DBState.insertCat])
  | addPhotosStep fault drive files cid _ _ hfin =>
    subst hfin
    rcases add_photos_committed_cases fault db drive files cid with h | ⟨c, urls, gfid, hfind, h⟩
    · rw [h]; exact hInv
    · rw [h]
      have hmem : c ∈ db.cats := List.mem_of_find?_eq_some hfind
      have hcid : c.id = cid := by
        have := List.find?_some hfind
        simpa using this
      rw [← hcid]
      exact strongInv_photosThenFolder db urls c.id gfid hInv (hInv.1 c hmem)
  | deletePhotoStep fault drive pid cid _ _ hfin =>
    subst hfin
    rcases delete_photo_committed_cases fault db drive pid cid with h | h
    · rw [h]; exact hInv
    · rw [h]; exact strongInv_deletePhotoRow db pid hInv
  | deleteCatStep fault drive cid _ _ hfin =>
    subst hfin
    rcases delete_cat_committed_cases fault db drive cid with h | h
    · rw [h]; exact hInv
    · rw [h]; exact strongInv_deleteCat db cid hInv

/-- Every reachable committed state satisfies the inductive invariant. -/
theorem strongInv_reachable (db : DBState) (h : Reachable db) : StrongInv db := by
  induction h with
  | init => refine ⟨?_, ?_, ?_⟩ <;> intro x hx <;> simp [emptyDB] at hx
  | step db db' _ hstep ih => exact strongInv_step db db' hstep ih

/-- C5 (amended): in every database state reachable through the public
operations, a cat with at least one Photo row has its external folder
identifier set.  The claimed converse — folder set only if a photo
exists — fails: deleting a cat's last photo never clears the folder id
(see the counterexample). -/
theorem c5_photos_imply_folder_set (db : DBState) (h : Reachable db) :
    ∀ c ∈ db.cats, (∃ p ∈ db.photos, p.cat_id = c.id) → c.google_folder_id ≠ none :=
  (strongInv_reachable db h).2.2

/-- The state after creating Tom with one photo is reachable. -/
theorem reachable_dbTomWithPhoto : Reachable dbTomWithPhoto :=
  Reachable.step emptyDB dbTomWithPhoto Reachable.init
    (Step.createStep .noFault emptyDrive tomCreate (some [jpgFile]) emptyDB
      dbTomWithPhoto (by rfl))

/-- A Drive store containing just the remote file of Tom's photo. -/
def driveWithGid2 : DriveState := ⟨[], [⟨"gid2", "a.jpg", "gid1"⟩], 0⟩

/-- The committed state after then deleting Tom's only photo: the folder
id is still set but no photo row remains. -/
def dbBadState : DBState := ⟨[tomCatWithFolder], [], 2, 2⟩

/-- C5 counterexample: a reachable state (create a cat with one photo,
then delete that photo) in which the cat's folder id is set while no
Photo row exists for it — the claimed "if and only if" invariant fails,
because `delete_photo` never clears `google_folder_id`. -/
theorem c5_folder_set_with_no_photos_reachable :
    Reachable dbBadState ∧
    tomCatWithFolder ∈ dbBadState.cats ∧
    tomCatWithFolder.google_folder_id ≠ none ∧
    dbBadState.photos = [] := by
  refine ⟨?_, ?_, ?_, rfl⟩
  · exact Reachable.step dbTomWithPhoto dbBadState reachable_dbTomWithPhoto
      (Step.deletePhotoStep .noFault driveWithGid2 1 1 dbTomWithPhoto dbBadState (by rfl))
  · simp [dbBadState]
  · simp [tomCatWithFolder]

/-- Witness for C5's amended theorem at the reachable one-photo state:
Tom owns a photo row there and his folder id is indeed set. -/
theorem c5_photos_imply_folder_set_witness :
    Reachable dbTomWithPhoto ∧
    tomCatWithFolder ∈ dbTomWithPhoto.cats ∧
    (∃ p ∈ dbTomWithPhoto.photos, p.cat_id = tomCatWithFolder.id) ∧
    tomCatWithFolder.google_folder_id ≠ none := by
  refine ⟨reachable_dbTomWithPhoto, ?_, ?_, ?_⟩
  · simp [dbTomWithPhoto]
  · exact ⟨tomPhoto, by simp [dbTomWithPhoto], rfl⟩
  · exact c5_photos_imply_folder_set dbTomWithPhoto reachable_dbTomWithPhoto
      tomCatWithFolder (by simp [dbTomWithPhoto])
      ⟨tomPhoto, by simp [dbTomWithPhoto], rfl⟩
